/-
Verification of the anibridge-plex-provider client/session layer.

This file shallowly embeds the parts of `anibridge_plex_provider/client.py`
and `anibridge_plex_provider/library.py` that the specification's testable
properties talk about, and proves (or refutes) each property.

Modelling conventions:
  * `datetime` instants and monotonic-clock instants are modelled as `Int`;
    `.astimezone()` changes only the timezone representation of a datetime,
    never the instant it denotes, so it is the identity in this model.
  * Python `str | None` fields whose truthiness the code tests are modelled
    as `Option String`, with `none` for `None`; an `Option String` is
    "truthy" when it is `some s` with `s ≠ ""`.
  * Remote calls that the code wraps in `try/except` are modelled as an
    `Except Unit α` argument supplied by the caller (`.error ()` = the call
    raised).
  * Python `dict`s used as caches are modelled as association lists with
    `dict`-style lookup and update; only lookup results are ever observed.
-/
import Mathlib

namespace AnibridgePlex

/-! ## Filter builder (`PlexClient.list_section_items._search_sync`) -/

/-- Operand of one structured-search filter pair, mirroring the values the
Python code places in the filter dicts. -/
inductive FilterOperand : Type
  /-- `reference_dt`, i.e. `min_last_modified.astimezone()`. -/
  | refDt (t : Int)
  /-- the literal `0` compared against `viewCount`. -/
  | zero
  /-- `datetime.fromtimestamp(0, tz=UTC)`. -/
  | epoch
  /-- the configured genre tuple. -/
  | genres (gs : List String)
deriving DecidableEq, Repr

/-- One `{key: operand}` pair inside a filter dict. The key string carries
the plexapi operator suffix exactly as written in the source. -/
structure FilterPair : Type where
  key : String
  operand : FilterOperand
deriving DecidableEq, Repr

/-- A node of the structured filter tree: either an `{"or": [...]}` dict or a
plain `{key: value}` dict. -/
inductive FilterNode : Type
  | orNode (clauses : List FilterPair)
  | plain (p : FilterPair)
deriving DecidableEq, Repr

/-- The `{"or": [...]}` dict appended for `min_last_modified`, branching on
`section.type == "movie"` exactly as the source does. -/
def modifiedFilterNode (sectionType : String) (t : Int) : FilterNode :=
  if sectionType = "movie" then
    .orNode
      [ ⟨"lastViewedAt>>=", .refDt t⟩,
        ⟨"lastRatedAt>>=", .refDt t⟩,
        ⟨"addedAt>>=", .refDt t⟩,
        ⟨"updatedAt>>=", .refDt t⟩ ]
  else
    .orNode
      [ ⟨"show.lastViewedAt>>=", .refDt t⟩,
        ⟨"show.lastRatedAt>>=", .refDt t⟩,
        ⟨"show.addedAt>>=", .refDt t⟩,
        ⟨"show.updatedAt>>=", .refDt t⟩,
        ⟨"season.lastViewedAt>>=", .refDt t⟩,
        ⟨"season.lastRatedAt>>=", .refDt t⟩,
        ⟨"season.addedAt>>=", .refDt t⟩,
        ⟨"season.updatedAt>>=", .refDt t⟩,
        ⟨"episode.lastViewedAt>>=", .refDt t⟩,
        ⟨"episode.lastRatedAt>>=", .refDt t⟩,
        ⟨"episode.addedAt>>=", .refDt t⟩,
        ⟨"episode.updatedAt>>=", .refDt t⟩ ]

/-- The `{"or": [...]}` dict appended for `require_watched`. -/
def watchedFilterNode (sectionType : String) : FilterNode :=
  if sectionType = "movie" then
    .orNode
      [ ⟨"viewCount>>", .zero⟩,
        ⟨"lastViewedAt>>", .epoch⟩,
        ⟨"lastRatedAt>>", .epoch⟩ ]
  else
    .orNode
      [ ⟨"show.viewCount>>", .zero⟩,
        ⟨"show.lastViewedAt>>", .epoch⟩,
        ⟨"show.lastRatedAt>>", .epoch⟩,
        ⟨"season.viewCount>>", .zero⟩,
        ⟨"season.lastViewedAt>>", .epoch⟩,
        ⟨"season.lastRatedAt>>", .epoch⟩,
        ⟨"episode.viewCount>>", .zero⟩,
        ⟨"episode.lastViewedAt>>", .epoch⟩,
        ⟨"episode.lastRatedAt>>", .epoch⟩ ]

/-- The `filters` list built step by step inside `_search_sync`: each `if`
appends at most one node, in source order. -/
def searchFilters (sectionType : String) (genre_filter : List String)
    (min_last_modified : Option Int) (require_watched : Bool) :
    List FilterNode :=
  let filters : List FilterNode := []
  let filters := match min_last_modified with
    | some t => filters ++ [modifiedFilterNode sectionType t]
    | none => filters
  let filters := if require_watched
    then filters ++ [watchedFilterNode sectionType]
    else filters
  let filters := if genre_filter ≠ []
    then filters ++ [.plain ⟨"genre", .genres genre_filter⟩]
    else filters
  filters

/-- `search_kwargs["filters"] = {"and": filters}` is set only when `filters`
is non-empty; `none` models the key being absent. -/
def searchFiltersKwarg (sectionType : String) (genre_filter : List String)
    (min_last_modified : Option Int) (require_watched : Bool) :
    Option (List FilterNode) :=
  let filters :=
    searchFilters sectionType genre_filter min_last_modified require_watched
  if filters ≠ [] then some filters else none

/-! ## Result post-processing (`_search_sync` after `section.search`) -/

/-- The plexapi classes `_search_sync` distinguishes with `isinstance`. -/
inductive ItemKind : Type
  | movie
  | show
  | other
deriving DecidableEq, Repr

/-- A raw search result: its class and its `ratingKey`. -/
structure RawItem : Type where
  kind : ItemKind
  ratingKey : Int
deriving DecidableEq, Repr

/-- `frozenset(str(k) for k in keys) if keys else None`: an empty or absent
`keys` sequence yields no key filter at all. -/
def keyFilterOf (keys : Option (List String)) : Option (List String) :=
  match keys with
  | none => none
  | some ks => if ks = [] then none else some ks

/-- The loop over `results` in `_search_sync`: keep only `Movie`/`Show`
instances and, when a key filter exists, only keys belonging to it. -/
def filterSearchResults (results : List RawItem) (keys : Option (List String)) :
    List RawItem :=
  let key_filter := keyFilterOf keys
  results.filter fun item =>
    (item.kind = .movie || item.kind = .show) &&
      (match key_filter with
        | none => true
        | some ks => toString item.ratingKey ∈ ks)

/-- `_search_sync` from `section.search` onward: the search either raises
(`.error ()`, caught and turned into `()`) or returns raw items, which are
then filtered. -/
def searchSyncResults (searchResult : Except Unit (List RawItem))
    (keys : Option (List String)) : List RawItem :=
  match searchResult with
  | .error _ => []
  | .ok results => filterSearchResults results keys

/-! ## Cache state (`PlexClient` instance attributes) -/

/-- `_FrozenCacheEntry`: a frozen set of string keys plus a monotonic expiry
instant. Set membership is all that is ever observed, so the frozenset is a
list of keys. -/
structure FrozenCacheEntry : Type where
  keys : List String
  expires_at : Int
deriving DecidableEq, Repr

/-- `dict.get`: first binding of the key in the association list. -/
def dictGet {α β : Type} [DecidableEq α] (m : List (α × β)) (k : α) :
    Option β :=
  (m.find? fun p => p.1 = k).map Prod.snd

/-- `dict[k] = v`: rebind the key, dropping any previous binding. -/
def dictSet {α β : Type} [DecidableEq α] (m : List (α × β)) (k : α) (v : β) :
    List (α × β) :=
  (k, v) :: m.filter fun p => ¬ p.1 = k

/-- The mutable attributes of a `PlexClient` that the cache operations read
and write. `user_client`/`is_admin` are `None` until `initialize` ran. -/
structure PlexClientState : Type where
  user_client : Bool
  is_admin : Option Bool
  continue_cache : List (String × FrozenCacheEntry)
  ordering_cache : List (Int × String)
  watchlist_cache : Option FrozenCacheEntry
  on_deck_window : Option Int
deriving DecidableEq, Repr

/-- `PlexClient.clear_cache`: empty the continue-watching and ordering
caches; nothing else is touched. -/
def clear_cache (s : PlexClientState) : PlexClientState :=
  { s with continue_cache := [], ordering_cache := [] }

/-- The provider-level state is just its client in this model. -/
structure ProviderState : Type where
  client : PlexClientState
deriving DecidableEq, Repr

/-- `PlexLibraryProvider.clear_cache`: delegates to the client. -/
def provider_clear_cache (p : ProviderState) : ProviderState :=
  { p with client := clear_cache p.client }

/-! ## `PlexClient.is_on_continue_watching` -/

/-- `section.continueWatching()` as supplied by the caller: either it raises
or it yields hub items, each with an optional `ratingKey`. -/
abbrev ContinueSource : Type := Except Unit (List (Option Int))

/-- The refreshed `_FrozenCacheEntry` built on a miss or stale hit: the hub
items' stringified rating keys, or the cleared (empty) set when the call
raised; expiry is `monotonic() + 300`. -/
def refreshedContinueEntry (src : ContinueSource) (now : Int) :
    FrozenCacheEntry :=
  let rating_keys : List String :=
    match src with
    | .error _ => []
    | .ok items => items.filterMap fun rk => rk.map toString
  { keys := rating_keys, expires_at := now + 300 }

/-- `PlexClient.is_on_continue_watching`. Raises (`.error ()`) only when the
client is uninitialized; otherwise answers membership of `itemKey` in the
fresh-or-refreshed cache entry for `sectionKey`, returning the new state. -/
def is_on_continue_watching (s : PlexClientState) (now : Int)
    (sectionKey : String) (src : ContinueSource) (itemKey : String) :
    Except Unit (Bool × PlexClientState) :=
  if ¬ s.user_client then .error () else
  let refresh : Bool × PlexClientState :=
    let entry := refreshedContinueEntry src now
    (entry.keys.contains itemKey,
      { s with continue_cache := dictSet s.continue_cache sectionKey entry })
  match dictGet s.continue_cache sectionKey with
  | none => .ok refresh
  | some e =>
      if e.expires_at ≤ now then .ok refresh
      else .ok (e.keys.contains itemKey, s)

/-! ## `PlexClient.is_on_watchlist` -/

/-- `self.account.watchlist()` as supplied by the caller: raises, or yields
watchlist items each with an optional `guid`. -/
abbrev WatchlistSource : Type := Except Unit (List (Option String))

/-- The refreshed watchlist `_FrozenCacheEntry`: the items' guid strings, or
the empty set when the call raised. -/
def refreshedWatchlistEntry (src : WatchlistSource) (now : Int) :
    FrozenCacheEntry :=
  let keys : List String :=
    match src with
    | .error _ => []
    | .ok items => items.filterMap id
  { keys := keys, expires_at := now + 300 }

/-- `PlexClient.is_on_watchlist`. Raises only when `self.is_admin` would
(uninitialized client). The result triple is (answer, new state, whether the
backing watchlist source was called). -/
def is_on_watchlist (s : PlexClientState) (now : Int) (src : WatchlistSource)
    (itemGuid : Option String) :
    Except Unit (Bool × PlexClientState × Bool) :=
  match s.is_admin with
  | none => .error ()
  | some admin =>
    if ¬ admin then .ok (false, s, false) else
    let stale : Bool :=
      match s.watchlist_cache with
      | none => true
      | some e => e.expires_at ≤ now
    let (entry, s', called) : FrozenCacheEntry × PlexClientState × Bool :=
      if stale then
        let e := refreshedWatchlistEntry src now
        (e, { s with watchlist_cache := some e }, true)
      else
        ((s.watchlist_cache.getD ⟨[], 0⟩), s, false)
    .ok
      ((match itemGuid with
        | none => false
        | some g => entry.keys.contains g), s', called)

/-! ## `PlexClient.get_ordering` -/

/-- A plexapi section setting, as observed by `get_ordering`. -/
structure SectionSetting : Type where
  id : String
  value : String
deriving DecidableEq, Repr

/-- The fields of a plexapi `Show` that `get_ordering` reads.
`showOrdering = ""` models a falsy (absent) per-show override. -/
structure ShowItem : Type where
  showOrdering : String
  librarySectionID : Int
  sectionSettings : List SectionSetting
deriving DecidableEq, Repr

/-- `PlexClient.get_ordering`: per-show override first (never cached), then
the ordering cache, then the section-level `showOrdering` setting, whose
mapped value is stored in the cache. Returns (ordering, new cache). -/
def get_ordering (cache : List (Int × String)) (show_ : ShowItem) :
    String × List (Int × String) :=
  if show_.showOrdering ≠ "" then
    (if show_.showOrdering = "tmdbAiring" then ("tmdb", cache)
     else if show_.showOrdering = "tvdbAiring" ∨ show_.showOrdering = "aired"
       then ("tvdb", cache)
     else ("", cache))
  else
    match dictGet cache show_.librarySectionID with
    | some cached => (cached, cache)
    | none =>
      let ordering_setting :=
        show_.sectionSettings.find? fun s => s.id = "showOrdering"
      let resolved : String :=
        match ordering_setting with
        | none => ""
        | some s =>
          if s.value = "tmdbAiring" then "tmdb"
          else if s.value = "aired" ∨ s.value = "tvdbAiring" then "tvdb"
          else ""
      (resolved, dictSet cache show_.librarySectionID resolved)

/-! ## Identity resolution (`PlexClient._initialize_clients`) -/

/-- Truthiness of a Python `str | None`. -/
def truthyStr : Option String → Bool
  | none => false
  | some s => s ≠ ""

/-- Python `a or b` on `str | None` values: `a` when truthy, else `b`. -/
def pyOr (a b : Option String) : Option String :=
  if truthyStr a then a else b

/-- Python `str.lower()`, modelled at the ASCII level as a character map
(kernel-reducible, unlike `String.toLower`). -/
def pyLower (s : String) : String :=
  ⟨s.data.map Char.toLower⟩

/-- Python `str.strip()`: drop leading and trailing whitespace. -/
def pyStrip (s : String) : String :=
  ⟨((s.data.dropWhile Char.isWhitespace).reverse.dropWhile
      Char.isWhitespace).reverse⟩

/-- `(x or "").lower()`. -/
def lowerOrEmpty (o : Option String) : String :=
  pyLower (o.getD "")

/-- A `MyPlexUser` (managed/shared account), fields read by the resolver. -/
structure MyPlexUser : Type where
  username : Option String
  email : Option String
  title : Option String
  id : Int
deriving DecidableEq, Repr

/-- A `MyPlexAccount` (the authenticated admin account), fields read by the
resolver, with its list of managed/shared users. -/
structure MyPlexAccount : Type where
  username : Option String
  email : Option String
  title : Option String
  id : Int
  users : List MyPlexUser
deriving DecidableEq, Repr

/-- The three `ValueError`s `_initialize_clients` can raise, with the data
interpolated into their messages (and, for the switch failure, the wrapped
cause). -/
inductive InitError : Type
  | userNotFound (requested : String)
  | identitySwitchUnavailable
  | identitySwitchFailed (login : String) (cause : String)
deriving DecidableEq, Repr

/-- The observable outcome of `_initialize_clients`: the resolved id,
display name and admin flag, plus the login string passed to `switchUser`
when (and only when) an identity switch was performed. -/
structure InitResult : Type where
  user_id : Int
  display_name : String
  is_admin : Bool
  switched : Option String
deriving DecidableEq, Repr

/-- `requested_user = (self._user or "").strip() or None`. -/
def requestedUserOf (user : Option String) : Option String :=
  let s := pyStrip (user.getD "")
  if s = "" then none else some s

/-- Whether `requested_lower` case-insensitively matches one of the
account's own (truthy) `username`, `email`, `title`. -/
def matchesAccount (account : MyPlexAccount) (requested_lower : String) :
    Bool :=
  [account.username, account.email, account.title].any fun candidate =>
    truthyStr candidate && lowerOrEmpty candidate = requested_lower

/-- The loop over `account.users()`: `target` is compared against the
lowered-or-empty `username`, `email`, `title` of each user. -/
def userMatches (target : String) (u : MyPlexUser) : Bool :=
  target = lowerOrEmpty u.username ||
    target = lowerOrEmpty u.email ||
    target = lowerOrEmpty u.title

/-- The target-user search of `_initialize_clients` (lines up to the
`is_admin = False` assignment): `none` target means the resolved identity is
the account itself. -/
def findTargetUser (account : MyPlexAccount) (user : Option String) :
    Except InitError (Option MyPlexUser) :=
  match requestedUserOf user with
  | none => .ok none
  | some requested_user =>
    let requested_lower := pyLower requested_user
    if matchesAccount account requested_lower then .ok none
    else
      match account.users.find? (userMatches requested_lower) with
      | some u => .ok (some u)
      | none => .error (.userNotFound requested_user)

/-- The switch step of `_initialize_clients` (`login = ...` through
`switchUser`): returns the login used, or `none` when no switch was needed.
`switchUser` is the remote call; `.error cause` models it raising. -/
def switchStep (target_user : Option MyPlexUser)
    (switchUser : String → Except String Unit) :
    Except InitError (Option String) :=
  match target_user with
  | none => .ok none
  | some u =>
    let login := pyOr u.username (pyOr u.email u.title)
    if ¬ truthyStr login then .error .identitySwitchUnavailable
    else
      let l := login.getD ""
      match switchUser l with
      | .ok _ => .ok (some l)
      | .error cause => .error (.identitySwitchFailed l cause)

/-- First truthy candidate, else the given default — `next(..., default)`
over the display-name candidate tuple. -/
def firstTruthy (candidates : List (Option String)) (default : String) :
    String :=
  match candidates.find? truthyStr with
  | some (some s) => s
  | _ => default

/-- The display-name resolution of `_initialize_clients`. -/
def displayNameOf (account : MyPlexAccount) (target_user : Option MyPlexUser)
    (requested_user : Option String) : String :=
  match target_user with
  | some u =>
      firstTruthy
        [u.username, u.email, u.title, requested_user, some "Plex User"]
        "Plex User"
  | none =>
      firstTruthy
        [account.username, account.email, account.title, requested_user,
          some "Plex Admin"]
        "Plex User"

/-- `PlexClient._initialize_clients` from the `requested_user` computation
onward (session construction and the account fetch are the inputs). -/
def initialize_clients (account : MyPlexAccount) (user : Option String)
    (switchUser : String → Except String Unit) :
    Except InitError InitResult :=
  match findTargetUser account user with
  | .error e => .error e
  | .ok target_user =>
    match switchStep target_user switchUser with
    | .error e => .error e
    | .ok switched =>
      .ok
        { user_id := (target_user.map MyPlexUser.id).getD account.id
          display_name :=
            displayNameOf account target_user (requestedUserOf user)
          is_admin := target_user.isNone
          switched := switched }

/-! ## History reconciliation (`PlexLibraryProvider.get_history`) -/

/-- The fields of a child (episode, or the item itself) that the
reconciliation reads. -/
structure EpisodeLike : Type where
  ratingKey : Int
  lastViewedAt : Option Int
deriving DecidableEq, Repr

/-- The plexapi classes `get_history` distinguishes with `isinstance`. -/
inductive VideoKind : Type
  | movie
  | show
  | season
  | episode
deriving DecidableEq, Repr

/-- The target item of `get_history`: its class, its own key/last-viewed
fields, and — for shows and seasons — its `episodes()` listing. -/
structure VideoItem : Type where
  kind : VideoKind
  ratingKey : Int
  lastViewedAt : Option Int
  episodes : List EpisodeLike
deriving DecidableEq, Repr

/-- An anibridge `HistoryEntry`. -/
structure HistoryEntry : Type where
  library_key : String
  viewed_at : Int
deriving DecidableEq, Repr

/-- `children = list(children_iter)`: the item's episodes for a show or
season, else the item itself as its only child. -/
def childrenOf (item : VideoItem) : List EpisodeLike :=
  if item.kind = .show ∨ item.kind = .season then item.episodes
  else [⟨item.ratingKey, item.lastViewedAt⟩]

/-- `PlexLibraryProvider.get_history` after the `fetch_history` call:
`plex_history` is the authoritative (key, viewed-at) list. -/
def get_history (plex_history : List (String × Int)) (item : VideoItem) :
    List HistoryEntry :=
  let children := childrenOf item
  if children = [] then
    plex_history.map fun p => ⟨p.1, p.2⟩
  else
    let base_entries : List HistoryEntry :=
      plex_history.map fun p => ⟨p.1, p.2⟩
    let base_keys : List String := plex_history.map Prod.fst
    let derived_children : List HistoryEntry :=
      children.filterMap fun child =>
        match child.lastViewedAt with
        | none => none
        | some last_viewed =>
          if toString child.ratingKey ∈ base_keys then none
          else some ⟨toString child.ratingKey, last_viewed⟩
    derived_children ++ base_entries

/-! ## Webhook parsing (`PlexLibraryProvider.parse_webhook`)

The `PlexWebhook` payload class lives in `anibridge_plex_provider/webhook.py`,
which is not present in the sources; its field accessors are modelled from
the spec. `parse_webhook` itself is embedded from `library.py`. -/

/-- The webhook event types named by the provider, plus a catch-all for
every other event tag. -/
inductive PlexWebhookEventType : Type
  | mediaAdded
  | rate
  | scrobble
  | play
  | stop
  | onDeck
  | otherEvent (tag : String)
deriving DecidableEq, Repr

/-- The webhook `Account` sub-object. -/
structure WebhookAccount : Type where
  id : Option Int
deriving DecidableEq, Repr

/-- The webhook `Metadata` sub-object. -/
structure WebhookMetadata : Type where
  ratingKey : Option String
  parentRatingKey : Option String
  grandparentRatingKey : Option String
deriving DecidableEq, Repr

/-- A decoded webhook payload. -/
structure PlexWebhook : Type where
  event : PlexWebhookEventType
  account : Option WebhookAccount
  metadata : Option WebhookMetadata
deriving DecidableEq, Repr

/-- Modelled from the spec: the payload's account identifier, read from the
`Account` sub-object (the `account_id` accessor of the absent
`webhook.py`). -/
def PlexWebhook.account_id (p : PlexWebhook) : Option Int :=
  p.account.bind WebhookAccount.id

/-- Modelled from the spec: the top-level rating key of the absent
`webhook.py`, "resolved by preferring grandparent-id, else parent-id, else
the item's own id". -/
def topLevelRatingKey (p : PlexWebhook) : Option String :=
  p.metadata.bind fun m =>
    pyOr m.grandparentRatingKey (pyOr m.parentRatingKey m.ratingKey)

/-- Truthiness of a Python `int | None`. -/
def pyTruthyInt : Option Int → Bool
  | none => false
  | some n => n ≠ 0

/-- An anibridge `LibraryUser`, as stored in `self._user`. -/
structure LibraryUser : Type where
  key : String
  title : String
deriving DecidableEq, Repr

/-- The two `ValueError`s `parse_webhook` raises. -/
inductive WebhookParseError : Type
  | noAccountId
  | noRatingKey
deriving DecidableEq, Repr

/-- The `if` condition of `parse_webhook`: the event is in the allowlist
and `self._user` is set with its key equal to `str(payload.account_id)`. -/
def webhookSyncCondition (user : Option LibraryUser)
    (event : PlexWebhookEventType) (aid : Int) : Bool :=
  (event = .mediaAdded || event = .rate || event = .scrobble) &&
    (match user with
      | some u => decide (u.key = toString aid)
      | none => false)

/-- `PlexLibraryProvider.parse_webhook` after the payload was decoded:
`user` is the provider's `self._user`. Falsy account id or falsy top-level
rating key raise; a matching allowlisted event from the provider's own user
yields `(True, (key,))`; everything else yields `(False, ())`. -/
def parse_webhook (user : Option LibraryUser) (payload : PlexWebhook) :
    Except WebhookParseError (Bool × List String) :=
  if ¬ pyTruthyInt payload.account_id then .error .noAccountId
  else if ¬ truthyStr (topLevelRatingKey payload) then .error .noRatingKey
  else
    let aid := payload.account_id.getD 0
    let key := (topLevelRatingKey payload).getD ""
    if webhookSyncCondition user payload.event aid
    then .ok (true, [key])
    else .ok (false, [])

/-- The ordering mapping exactly as the spec words it: `tmdbAiring` →
`"tmdb"`, `tvdbAiring`/`aired` → `"tvdb"`, anything else (including empty)
→ `""`. Stated from the spec to be compared against `get_ordering`. -/
def orderingMapSpec (v : String) : String :=
  if v = "tmdbAiring" then "tmdb"
  else if v = "tvdbAiring" ∨ v = "aired" then "tvdb"
  else ""

/-- The section-level `showOrdering` setting value, `""` when absent. -/
def sectionOrderingValue (show_ : ShowItem) : String :=
  ((show_.sectionSettings.find? fun s => s.id = "showOrdering").map
    SectionSetting.value).getD ""

/-- The derived-entry rule of the history reconciliation, as the spec words
it: a child with a non-null last-viewed timestamp whose key is not among
the authoritative keys yields a derived entry. -/
def derivedEntryOf (base_keys : List String) (child : EpisodeLike) :
    Option HistoryEntry :=
  match child.lastViewedAt with
  | none => none
  | some last_viewed =>
    if toString child.ratingKey ∈ base_keys then none
    else some ⟨toString child.ratingKey, last_viewed⟩

/-! ## Theorems -/

/-- C5: the structured filter tree built for a section search is a top-level
AND whose clauses appear in the order modified-filter, watched-filter,
genre-filter, each present only if its input was supplied (an empty genre
filter contributes no clause); the modified-filter is an OR of exactly 4
attribute-threshold comparisons for a movie-kind section and exactly 12 for
a show-kind section. -/
theorem searchFilters_clause_shape :
    (∀ (sectionType : String) (gf : List String) (mlm : Option Int)
        (rw : Bool),
      searchFilters sectionType gf mlm rw =
        (match mlm with
          | some t => [modifiedFilterNode sectionType t]
          | none => []) ++
        (if rw then [watchedFilterNode sectionType] else []) ++
        (if gf = [] then []
          else [FilterNode.plain ⟨"genre", FilterOperand.genres gf⟩])) ∧
    (∀ t : Int, ∃ cs, modifiedFilterNode "movie" t = FilterNode.orNode cs ∧
      cs.length = 4) ∧
    (∀ t : Int, ∃ cs, modifiedFilterNode "show" t = FilterNode.orNode cs ∧
      cs.length = 12) := by
  refine ⟨?_, ?_, ?_⟩
  · intro sectionType gf mlm rw
    cases mlm <;> cases rw <;> by_cases hgf : gf = [] <;>
      simp [searchFilters, hgf]
  · intro t
    exact ⟨_, rfl, rfl⟩
  · intro t
    refine ⟨[⟨"show.lastViewedAt>>=", .refDt t⟩,
        ⟨"show.lastRatedAt>>=", .refDt t⟩,
        ⟨"show.addedAt>>=", .refDt t⟩,
        ⟨"show.updatedAt>>=", .refDt t⟩,
        ⟨"season.lastViewedAt>>=", .refDt t⟩,
        ⟨"season.lastRatedAt>>=", .refDt t⟩,
        ⟨"season.addedAt>>=", .refDt t⟩,
        ⟨"season.updatedAt>>=", .refDt t⟩,
        ⟨"episode.lastViewedAt>>=", .refDt t⟩,
        ⟨"episode.lastRatedAt>>=", .refDt t⟩,
        ⟨"episode.addedAt>>=", .refDt t⟩,
        ⟨"episode.updatedAt>>=", .refDt t⟩], ?_, rfl⟩
    simp [modifiedFilterNode]

/-- C9 counterexample: with an empty (but supplied) keys allowlist, a
successful search returns the movie item even though its key `"1"` is not a
member of the empty allowlist — the claim's allowlist guarantee fails for
`keys = []`. -/
theorem searchSync_empty_allowlist_counterexample :
    searchSyncResults (Except.ok [⟨ItemKind.movie, 1⟩]) (some []) =
        [⟨ItemKind.movie, 1⟩] ∧
      toString (1 : Int) ∉ ([] : List String) := by
  constructor
  · rfl
  · simp

/-- C9 (amended): if the remote search raises, `list_section_items` returns
an empty sequence; when a non-empty keys allowlist is supplied, every
returned item's key is a member of that allowlist (an empty allowlist is
treated as if none was supplied); and items of unexpected kinds are always
discarded. -/
theorem searchSync_fail_open_and_filters :
    (∀ keys, searchSyncResults (Except.error ()) keys = []) ∧
    (∀ (res : List RawItem) (ks : List String) (item : RawItem),
      ks ≠ [] → item ∈ searchSyncResults (Except.ok res) (some ks) →
      toString item.ratingKey ∈ ks) ∧
    (∀ (sr : Except Unit (List RawItem)) (keys : Option (List String))
        (item : RawItem), item ∈ searchSyncResults sr keys →
      item.kind = ItemKind.movie ∨ item.kind = ItemKind.show) := by
  refine ⟨fun _ => rfl, ?_, ?_⟩
  · intro res ks item hks hmem
    simp only [searchSyncResults, filterSearchResults, keyFilterOf,
      List.mem_filter, if_neg hks] at hmem
    rcases hmem with ⟨-, hcond⟩
    simp only [Bool.and_eq_true, decide_eq_true_eq] at hcond
    exact hcond.2
  · intro sr keys item hmem
    cases sr with
    | error e => simp [searchSyncResults] at hmem
    | ok res =>
      simp only [searchSyncResults, filterSearchResults, List.mem_filter,
        Bool.and_eq_true, Bool.or_eq_true, decide_eq_true_eq] at hmem
      exact hmem.2.1

/-- C9 witness for the amended theorem's hypotheses, at concrete inputs. -/
theorem searchSync_fail_open_and_filters_witness :
    toString (⟨ItemKind.movie, 1⟩ : RawItem).ratingKey ∈ ["1"] ∧
      ((⟨ItemKind.movie, 1⟩ : RawItem).kind = ItemKind.movie ∨
        (⟨ItemKind.movie, 1⟩ : RawItem).kind = ItemKind.show) := by
  constructor
  · exact searchSync_fail_open_and_filters.2.1 [⟨ItemKind.movie, 1⟩] ["1"]
      ⟨ItemKind.movie, 1⟩ (by simp) (by decide)
  · exact searchSync_fail_open_and_filters.2.2 (Except.ok [⟨ItemKind.movie, 1⟩])
      none ⟨ItemKind.movie, 1⟩ (by decide)

/-- C4: when the resolved identity is non-admin, `is_on_watchlist` returns
`False`, leaves the client state (watchlist cache included) untouched, and
never calls the backing watchlist source. -/
theorem is_on_watchlist_nonadmin_negative :
    ∀ (s : PlexClientState) (now : Int) (src : WatchlistSource)
      (itemGuid : Option String),
      s.is_admin = some false →
      is_on_watchlist s now src itemGuid = .ok (false, s, false) := by
  intro s now src itemGuid h
  simp [is_on_watchlist, h]

/-- C4 witness: a concrete non-admin state. -/
theorem is_on_watchlist_nonadmin_negative_witness :
    is_on_watchlist ⟨true, some false, [], [], none, none⟩ 0
        (Except.ok []) (some "g") = .ok (false, ⟨true, some false, [], [], none, none⟩, false) :=
  is_on_watchlist_nonadmin_negative ⟨true, some false, [], [], none, none⟩ 0
    (Except.ok []) (some "g") rfl

/-- C10: `clear_cache` (and the provider-level reset, which delegates to it)
empties only the continue-watching and ordering caches, leaving the
watchlist cache entry and the on-deck window value unchanged — so
`is_on_watchlist` behaves identically (same answer, same source calls)
across a cache clear, a populated fresh watchlist entry serving reads until
its own expiry. -/
theorem clear_cache_frame :
    (∀ s : PlexClientState,
      (clear_cache s).continue_cache = [] ∧
      (clear_cache s).ordering_cache = [] ∧
      (clear_cache s).watchlist_cache = s.watchlist_cache ∧
      (clear_cache s).on_deck_window = s.on_deck_window ∧
      (clear_cache s).user_client = s.user_client ∧
      (clear_cache s).is_admin = s.is_admin) ∧
    (∀ p : ProviderState, provider_clear_cache p = ⟨clear_cache p.client⟩) ∧
    (∀ (s : PlexClientState) (now : Int) (src : WatchlistSource)
        (g : Option String),
      is_on_watchlist (clear_cache s) now src g =
        (is_on_watchlist s now src g).map fun r =>
          (r.1, clear_cache r.2.1, r.2.2)) := by
  refine ⟨fun s => ⟨rfl, rfl, rfl, rfl, rfl, rfl⟩, fun p => rfl, ?_⟩
  intro s now src g
  cases hadm : s.is_admin with
  | none => simp [is_on_watchlist, clear_cache, hadm, Except.map]
  | some admin =>
    cases admin with
    | false => simp [is_on_watchlist, clear_cache, hadm, Except.map]
    | true =>
      cases hw : s.watchlist_cache with
      | none => simp [is_on_watchlist, clear_cache, hadm, hw, Except.map]
      | some e =>
        by_cases hstale : e.expires_at ≤ now <;>
          simp [is_on_watchlist, clear_cache, hadm, hw, hstale, Except.map]

/-- C3: for an initialized client whose cache entry for the section is
missing or stale (so a refresh happens), a raising continue-watching source
call does not propagate: the result is `False` for every queried item key
and the refresh stores an empty key set with a fresh expiry. -/
theorem is_on_continue_watching_fail_open :
    ∀ (s : PlexClientState) (now : Int) (sectionKey itemKey : String),
      s.user_client = true →
      (dictGet s.continue_cache sectionKey = none ∨
        ∃ e, dictGet s.continue_cache sectionKey = some e ∧
          e.expires_at ≤ now) →
      is_on_continue_watching s now sectionKey (.error ()) itemKey =
        .ok (false,
          { s with continue_cache :=
              dictSet s.continue_cache sectionKey ⟨[], now + 300⟩ }) := by
  intro s now sectionKey itemKey hinit hstale
  rcases hstale with hnone | ⟨e, hsome, hexp⟩
  · simp [is_on_continue_watching, hinit, hnone, refreshedContinueEntry]
  · simp [is_on_continue_watching, hinit, hsome, hexp, refreshedContinueEntry]

/-- C3 witness: a concrete initialized client with an empty cache. -/
theorem is_on_continue_watching_fail_open_witness :
    is_on_continue_watching ⟨true, some true, [], [], none, none⟩ 0 "2"
        (.error ()) "17" =
      .ok (false, ⟨true, some true, [("2", ⟨[], 300⟩)], [], none, none⟩) :=
  is_on_continue_watching_fail_open ⟨true, some true, [], [], none, none⟩ 0
    "2" "17" rfl (Or.inl rfl)

/-- The section-level `resolved` expression of `get_ordering` agrees with
the spec's mapping applied to the setting value (empty when absent). -/
theorem resolved_match_eq_spec (o : Option SectionSetting) :
    (match o with
      | none => ""
      | some s =>
        if s.value = "tmdbAiring" then "tmdb"
        else if s.value = "aired" ∨ s.value = "tvdbAiring" then "tvdb"
        else "") =
      orderingMapSpec ((o.map SectionSetting.value).getD "") := by
  cases o with
  | none => rfl
  | some s =>
    simp only [Option.map_some, Option.getD_some, orderingMapSpec]
    by_cases h1 : s.value = "tmdbAiring" <;>
      by_cases h2 : s.value = "aired" <;>
        by_cases h3 : s.value = "tvdbAiring" <;>
          simp [h1, h2, h3]

/-- C2: a non-empty per-show ordering override is mapped by the claimed
mapping and always wins, with the cache untouched; a cached section-level
value is served as-is; on a cache miss the section-level setting is mapped
by the same mapping and that section-level result (only) is stored in the
cache. -/
theorem get_ordering_mapping_and_cache :
    (∀ (cache : List (Int × String)) (show_ : ShowItem),
      show_.showOrdering ≠ "" →
      get_ordering cache show_ = (orderingMapSpec show_.showOrdering, cache)) ∧
    (∀ (cache : List (Int × String)) (show_ : ShowItem) (v : String),
      show_.showOrdering = "" →
      dictGet cache show_.librarySectionID = some v →
      get_ordering cache show_ = (v, cache)) ∧
    (∀ (cache : List (Int × String)) (show_ : ShowItem),
      show_.showOrdering = "" →
      dictGet cache show_.librarySectionID = none →
      get_ordering cache show_ =
        (orderingMapSpec (sectionOrderingValue show_),
          dictSet cache show_.librarySectionID
            (orderingMapSpec (sectionOrderingValue show_)))) := by
  refine ⟨?_, ?_, ?_⟩
  · intro cache show_ h
    simp only [get_ordering, orderingMapSpec, if_pos h]
    split
    · next heq => simp [heq]
    · split
      · next heq =>
        rcases heq with heq | heq <;> simp [heq]
      · next hne hne2 =>
        simp [hne, hne2]
  · intro cache show_ v h hget
    simp [get_ordering, h, hget]
  · intro cache show_ h hget
    simp only [get_ordering, h, ne_eq, not_true_eq_false, if_false, hget]
    rw [resolved_match_eq_spec]
    rfl

/-- C2 witness: a per-show override of `tmdbAiring` wins over a cached
section value; a cached section value is served; a miss caches the mapped
section setting. -/
theorem get_ordering_mapping_and_cache_witness :
    get_ordering [(5, "tvdb")] ⟨"tmdbAiring", 5, []⟩ =
        ("tmdb", [(5, "tvdb")]) ∧
      get_ordering [(5, "tvdb")] ⟨"", 5, [⟨"showOrdering", "tmdbAiring"⟩]⟩ =
        ("tvdb", [(5, "tvdb")]) ∧
      get_ordering [] ⟨"", 5, [⟨"showOrdering", "aired"⟩]⟩ =
        ("tvdb", [(5, "tvdb")]) := by
  refine ⟨?_, ?_, ?_⟩
  · exact get_ordering_mapping_and_cache.1 [(5, "tvdb")]
      ⟨"tmdbAiring", 5, []⟩ (by decide)
  · exact get_ordering_mapping_and_cache.2.1 [(5, "tvdb")]
      ⟨"", 5, [⟨"showOrdering", "tmdbAiring"⟩]⟩ "tvdb" rfl (by decide)
  · exact get_ordering_mapping_and_cache.2.2 []
      ⟨"", 5, [⟨"showOrdering", "aired"⟩]⟩ rfl rfl

/-- C1: `get_history` returns derived entries followed by authoritative
entries; the derived entries are exactly those synthesized, child by child,
from non-null last-viewed timestamps of children (episodes of a show or
season, the item itself otherwise) whose key is not among the authoritative
keys; no authoritative key ever contributes a derived entry. -/
theorem get_history_derived_then_base :
    ∀ (ph : List (String × Int)) (item : VideoItem),
      get_history ph item =
        (childrenOf item).filterMap
            (derivedEntryOf (ph.map Prod.fst)) ++
          ph.map (fun p => ⟨p.1, p.2⟩) ∧
      ∀ e ∈ (childrenOf item).filterMap
          (derivedEntryOf (ph.map Prod.fst)),
        e.library_key ∉ ph.map Prod.fst := by
  intro ph item
  constructor
  · by_cases h : childrenOf item = []
    · simp [get_history, h, derivedEntryOf]
    · simp only [get_history, if_neg h]
      rfl
  · intro e he
    simp only [List.mem_filterMap, derivedEntryOf] at he
    obtain ⟨c, -, hf⟩ := he
    split at hf
    · cases hf
    · split at hf
      · cases hf
      · next hmem =>
        cases hf
        exact hmem

/-- C1 witness: a show with an authoritative entry for episode 1 and a
last-viewed timestamp on episode 2 merges to a derived entry for episode 2
followed by the authoritative entry for episode 1. -/
theorem get_history_derived_then_base_witness :
    get_history [("1", (10 : Int))]
        ⟨VideoKind.show, 9, none, [⟨1, some 5⟩, ⟨2, some 7⟩]⟩ =
      [⟨"2", 7⟩, ⟨"1", 10⟩] ∧
    (⟨"2", (7 : Int)⟩ : HistoryEntry).library_key ∉
      ([("1", (10 : Int))].map Prod.fst) := by
  have h := get_history_derived_then_base [("1", (10 : Int))]
    ⟨VideoKind.show, 9, none, [⟨1, some 5⟩, ⟨2, some 7⟩]⟩
  refine ⟨?_, h.2 ⟨"2", 7⟩ (by decide)⟩
  rw [h.1]
  decide

/-- C6: a requested-user string that case-insensitively matches the
authenticated account's own (truthy) username, email, or title resolves as
the account itself — admin, no switch attempted — and the outcome is
independent of the managed/shared user list and of the switch call. -/
theorem initialize_clients_self_match :
    ∀ (account : MyPlexAccount) (user : Option String)
      (sw sw' : String → Except String Unit) (us' : List MyPlexUser)
      (ru : String),
      requestedUserOf user = some ru →
      matchesAccount account (pyLower ru) = true →
      (initialize_clients account user sw =
        .ok { user_id := account.id,
              display_name := displayNameOf account none (some ru),
              is_admin := true, switched := none }) ∧
      initialize_clients { account with users := us' } user sw' =
        initialize_clients account user sw := by
  intro account user sw sw' us' ru hru hmatch
  have hm' : matchesAccount { account with users := us' } (pyLower ru) = true := by
    simpa [matchesAccount] using hmatch
  have h1 : findTargetUser account user = .ok none := by
    simp [findTargetUser, hru, hmatch]
  have h2 : findTargetUser { account with users := us' } user = .ok none := by
    simp [findTargetUser, hru, hm']
  constructor
  · simp [initialize_clients, h1, switchStep, displayNameOf, hru]
  · simp [initialize_clients, h1, h2, switchStep, displayNameOf, hru]

/-- C6 witness: `" The Admin "` matches the account title `"The Admin"`
case-insensitively after trimming. -/
theorem initialize_clients_self_match_witness :
    initialize_clients
        ⟨some "Admin", none, some "The Admin", 42,
          [⟨some "bob", none, none, 7⟩]⟩
        (some " the ADMIN ") (fun _ => .error "unused") =
      .ok { user_id := 42, display_name := "Admin", is_admin := true,
            switched := none } :=
  (initialize_clients_self_match
    ⟨some "Admin", none, some "The Admin", 42, [⟨some "bob", none, none, 7⟩]⟩
    (some " the ADMIN ") (fun _ => .error "unused")
    (fun _ => .error "unused") [] "the ADMIN" (by decide) (by decide)).1

/-- C7: identity resolution fails with `UserNotFound` naming the requested
string when no managed/shared user matches; the switch step fails with
`IdentitySwitchUnavailable` when the matched user offers no truthy
username, email, or title as login; and resolution fails with
`IdentitySwitchFailed`, wrapping the cause and naming the attempted login,
when the switch call raises. -/
theorem initialize_clients_error_paths :
    (∀ (account : MyPlexAccount) (user : Option String)
        (sw : String → Except String Unit) (ru : String),
      requestedUserOf user = some ru →
      matchesAccount account (pyLower ru) = false →
      account.users.find? (userMatches (pyLower ru)) = none →
      initialize_clients account user sw = .error (.userNotFound ru)) ∧
    (∀ (u : MyPlexUser) (sw : String → Except String Unit),
      truthyStr u.username = false → truthyStr u.email = false →
      truthyStr u.title = false →
      switchStep (some u) sw = .error .identitySwitchUnavailable) ∧
    (∀ (account : MyPlexAccount) (user : Option String)
        (sw : String → Except String Unit) (ru : String) (u : MyPlexUser)
        (lg : String) (cause : String),
      requestedUserOf user = some ru →
      matchesAccount account (pyLower ru) = false →
      account.users.find? (userMatches (pyLower ru)) = some u →
      pyOr u.username (pyOr u.email u.title) = some lg →
      lg ≠ "" →
      sw lg = .error cause →
      initialize_clients account user sw =
        .error (.identitySwitchFailed lg cause)) := by
  refine ⟨?_, ?_, ?_⟩
  · intro account user sw ru hru hmatch hfind
    simp [initialize_clients, findTargetUser, hru, hmatch, hfind]
  · intro u sw hu he ht
    simp [switchStep, pyOr, hu, he, ht]
  · intro account user sw ru u lg cause hru hmatch hfind hlogin hlg hsw
    have hft : findTargetUser account user = .ok (some u) := by
      simp [findTargetUser, hru, hmatch, hfind]
    have hss : switchStep (some u) sw =
        .error (.identitySwitchFailed lg cause) := by
      simp [switchStep, hlogin, truthyStr, hlg, hsw]
    simp [initialize_clients, hft, hss]

/-- C7 witness: an unknown user, a user with no usable identifier, and a
failing switch call, at concrete inputs. -/
theorem initialize_clients_error_paths_witness :
    initialize_clients ⟨some "Admin", none, none, 1, []⟩ (some "ghost")
        (fun _ => .ok ()) = .error (.userNotFound "ghost") ∧
      switchStep (some ⟨none, some "", none, 3⟩) (fun _ => .ok ()) =
        .error .identitySwitchUnavailable ∧
      initialize_clients
          ⟨some "Admin", none, none, 1, [⟨some "Bob", none, none, 3⟩]⟩
          (some "bob") (fun _ => .error "boom") =
        .error (.identitySwitchFailed "Bob" "boom") := by
  refine ⟨?_, ?_, ?_⟩
  · exact initialize_clients_error_paths.1 ⟨some "Admin", none, none, 1, []⟩
      (some "ghost") (fun _ => .ok ()) "ghost" (by decide) (by decide) rfl
  · exact initialize_clients_error_paths.2.1 ⟨none, some "", none, 3⟩
      (fun _ => .ok ()) rfl rfl rfl
  · exact initialize_clients_error_paths.2.2
      ⟨some "Admin", none, none, 1, [⟨some "Bob", none, none, 3⟩]⟩
      (some "bob") (fun _ => .error "boom") "bob" ⟨some "Bob", none, none, 3⟩
      "Bob" "boom" (by decide) (by decide) (by decide) rfl (by decide) rfl

/-- C8: `parse_webhook` raises a parse error on a falsy account id, then on
a falsy resolved top-level rating key; for a well-formed payload it returns
`(True, (topLevelRatingKey,))` exactly when the event type is media-added,
rate, or scrobble and the account id matches the provider's resolved user
key, and `(False, ())` otherwise. -/
theorem parse_webhook_gating :
    (∀ (user : Option LibraryUser) (payload : PlexWebhook),
      pyTruthyInt payload.account_id = false →
      parse_webhook user payload = .error .noAccountId) ∧
    (∀ (user : Option LibraryUser) (payload : PlexWebhook),
      pyTruthyInt payload.account_id = true →
      truthyStr (topLevelRatingKey payload) = false →
      parse_webhook user payload = .error .noRatingKey) ∧
    (∀ (user : Option LibraryUser) (payload : PlexWebhook) (aid : Int)
        (k : String),
      payload.account_id = some aid → aid ≠ 0 →
      topLevelRatingKey payload = some k → k ≠ "" →
      (parse_webhook user payload = .ok (true, [k]) ↔
        ((payload.event = .mediaAdded ∨ payload.event = .rate ∨
            payload.event = .scrobble) ∧
          ∃ u, user = some u ∧ u.key = toString aid)) ∧
      (¬ ((payload.event = .mediaAdded ∨ payload.event = .rate ∨
            payload.event = .scrobble) ∧
          ∃ u, user = some u ∧ u.key = toString aid) →
        parse_webhook user payload = .ok (false, []))) := by
  refine ⟨?_, ?_, ?_⟩
  · intro user payload h
    simp [parse_webhook, h]
  · intro user payload ha hk
    simp [parse_webhook, ha, hk]
  · intro user payload aid k ha haid hk hks
    have hta : pyTruthyInt payload.account_id = true := by
      simp [pyTruthyInt, ha, haid]
    have htk : truthyStr (topLevelRatingKey payload) = true := by
      simp [truthyStr, hk, hks]
    have hred : parse_webhook user payload =
        if webhookSyncCondition user payload.event aid
        then .ok (true, [k]) else .ok (false, []) := by
      rw [parse_webhook, if_neg (by simp [hta]), if_neg (by simp [htk]),
        ha, hk]
      rfl
    have hiff : webhookSyncCondition user payload.event aid = true ↔
        ((payload.event = PlexWebhookEventType.mediaAdded ∨
            payload.event = PlexWebhookEventType.rate ∨
            payload.event = PlexWebhookEventType.scrobble) ∧
          ∃ u, user = some u ∧ u.key = toString aid) := by
      cases user with
      | none => simp [webhookSyncCondition]
      | some u => simp [webhookSyncCondition, or_assoc]
    rw [hred]
    by_cases hc : ((payload.event = PlexWebhookEventType.mediaAdded ∨
        payload.event = PlexWebhookEventType.rate ∨
        payload.event = PlexWebhookEventType.scrobble) ∧
      ∃ u, user = some u ∧ u.key = toString aid)
    · rw [if_pos (hiff.mpr hc)]
      exact ⟨iff_of_true rfl hc, fun hn => absurd hc hn⟩
    · rw [if_neg (fun hb => hc (hiff.mp hb))]
      exact ⟨iff_of_false (by simp) hc, fun _ => rfl⟩

/-- C8 witness: concrete payloads for each conjunct. -/
theorem parse_webhook_gating_witness :
    parse_webhook (some ⟨"4", "User"⟩)
        ⟨.scrobble, none, some ⟨some "e", some "s", some "g"⟩⟩ =
      .error .noAccountId ∧
    parse_webhook (some ⟨"4", "User"⟩) ⟨.scrobble, some ⟨some 4⟩, none⟩ =
      .error .noRatingKey ∧
    parse_webhook (some ⟨"4", "User"⟩)
        ⟨.scrobble, some ⟨some 4⟩, some ⟨some "e", some "s", some "g"⟩⟩ =
      .ok (true, ["g"]) := by
  refine ⟨?_, ?_, ?_⟩
  · exact parse_webhook_gating.1 (some ⟨"4", "User"⟩)
      ⟨.scrobble, none, some ⟨some "e", some "s", some "g"⟩⟩ rfl
  · exact parse_webhook_gating.2.1 (some ⟨"4", "User"⟩)
      ⟨.scrobble, some ⟨some 4⟩, none⟩ rfl rfl
  · exact (parse_webhook_gating.2.2 (some ⟨"4", "User"⟩)
      ⟨.scrobble, some ⟨some 4⟩, some ⟨some "e", some "s", some "g"⟩⟩ 4 "g"
      rfl (by decide) rfl (by decide)).1.mpr
      ⟨Or.inr (Or.inr rfl), ⟨"4", "User"⟩, rfl, by decide⟩

end AnibridgePlex
